import Mathlib

set_option maxRecDepth 8000

/-!
Shallow embedding of `scripts/build_barcode_status.js`, a build script that
reads an Upptime `summary.json` and renders a barcode-style static status
page.

Conventions of the embedding:
* JavaScript numbers are modelled as exact rationals (`ℚ`), with `NaN` as a
  separate constructor of the value type where it matters for truthiness.
* The value domain `JSVal` covers the inputs `percentToNumber` is given per
  the summary schema: `null`, `undefined`, numbers (including `NaN`) and
  strings.
* `Number(string)` conversion is modelled over its finite decimal fragment
  (ASCII whitespace trimming, optional sign, integer/fraction/exponent
  forms); non-decimal forms such as hex literals or `Infinity` are treated
  as non-numeric.  All concrete evaluations below stay inside this fragment.
* The random shuffle `stripePalette.sort(() => Math.random() - 0.5)` is
  modelled by an explicit `shuffle` parameter; properties that hold
  regardless of the shuffle quantify over arbitrary permutations.
* File system effects (`readFileSync`, `JSON.parse`, `mkdirSync`,
  `writeFileSync`) are modelled by explicit state passing over an `FS`
  record whose summary-file contents are kept at parse-outcome granularity.
-/

/-- JavaScript values that can appear in a service record field. -/
inductive JSVal where
  | vNull
  | vUndefined
  | vNaN
  | vNum (q : ℚ)
  | vStr (s : String)
deriving DecidableEq

/-- JavaScript truthiness on the modelled value domain: `null`, `undefined`,
`NaN`, `0` and the empty string are falsy, everything else is truthy. -/
def jsTruthy : JSVal → Bool
  | .vNull => false
  | .vUndefined => false
  | .vNaN => false
  | .vNum q => decide (q ≠ 0)
  | .vStr s => decide (s ≠ "")

/-- JavaScript `a || b` on record-field values. -/
def jsOr (a b : JSVal) : JSVal := if jsTruthy a then a else b

/-- JavaScript `a || b` on numbers already known to be finite rationals
(the only falsy such number is `0`). -/
def qOr (a b : ℚ) : ℚ := if a = 0 then b else a

/-- ASCII whitespace as trimmed by `Number()` string conversion. -/
def jsWhitespace (c : Char) : Bool :=
  c = ' ' || c = '\t' || c = '\n' || c = '\r' || c = '\x0b' || c = '\x0c'

/-- Trim leading and trailing whitespace from a character list. -/
def trimJs (cs : List Char) : List Char :=
  ((cs.dropWhile jsWhitespace).reverse.dropWhile jsWhitespace).reverse

/-- Numeric value of a string of decimal digits. -/
def digitsVal (cs : List Char) : ℕ :=
  cs.foldl (fun acc c => acc * 10 + (c.toNat - 48)) 0

/-- Parse an optionally signed exponent part (the digits after `e`/`E`),
scaling `base` accordingly. -/
def parseExpDigits (base : ℚ) (cs : List Char) : Option ℚ :=
  let (sign, ds) : ℤ × List Char :=
    match cs with
    | '+' :: r => (1, r)
    | '-' :: r => (-1, r)
    | r => (1, r)
  if ds ≠ [] ∧ ds.all (·.isDigit) then some (base * (10 : ℚ) ^ (sign * (digitsVal ds : ℤ)))
  else none

/-- Parse what follows the mantissa: nothing, or an `e`/`E` exponent. -/
def parseExpTail (base : ℚ) (cs : List Char) : Option ℚ :=
  match cs with
  | [] => some base
  | 'e' :: rest => parseExpDigits base rest
  | 'E' :: rest => parseExpDigits base rest
  | _ => none

/-- Parse an unsigned decimal literal: digits, optional fraction, optional
exponent, in the shapes `Number()` accepts (`12`, `12.`, `12.5`, `.5`,
`1e3`, `1.5e-2`, ...). -/
def parseUnsignedDec (cs : List Char) : Option ℚ :=
  let intPart := cs.takeWhile (·.isDigit)
  let rest := cs.dropWhile (·.isDigit)
  match rest with
  | [] => if intPart = [] then none else some (digitsVal intPart)
  | '.' :: rest2 =>
    let fracPart := rest2.takeWhile (·.isDigit)
    let rest3 := rest2.dropWhile (·.isDigit)
    if intPart = [] ∧ fracPart = [] then none
    else parseExpTail ((digitsVal intPart : ℚ) + (digitsVal fracPart : ℚ) / (10 : ℚ) ^ fracPart.length) rest3
  | _ => if intPart = [] then none else parseExpTail (digitsVal intPart) rest

/-- Parse an optionally signed decimal literal. -/
def parseSignedDec (cs : List Char) : Option ℚ :=
  match cs with
  | '+' :: r => parseUnsignedDec r
  | '-' :: r => (parseUnsignedDec r).map (fun q => -q)
  | r => parseUnsignedDec r

/-- JavaScript `Number(s)` on strings, over the finite decimal fragment:
`none` models `NaN`.  A whitespace-only string converts to `0`. -/
def jsStringToNumber (s : String) : Option ℚ :=
  let cs := trimJs s.data
  if cs = [] then some 0 else parseSignedDec cs

/-- Remove the first occurrence of `target` from a character list, as
JavaScript `String.prototype.replace` with a string pattern does. -/
def removeFirstChar (target : Char) : List Char → List Char
  | [] => []
  | c :: cs => if c = target then cs else c :: removeFirstChar target cs

/-- JavaScript `s.replace("%", "")`: removes the first `%`, wherever it
occurs, leaving any other occurrences in place. -/
def replaceFirstPercent (s : String) : String :=
  ⟨removeFirstChar '%' s.data⟩

/-- Embedding of `percentToNumber`: falsy values give `0`, numbers are
returned as-is, and any other value is stringified, has its first `%`
removed, and is converted with `Number(...) || 0`.  The catch-all arm is
unreachable: every non-number, non-string value in the domain is falsy. -/
def percentToNumber (value : JSVal) : ℚ :=
  if jsTruthy value = false then 0
  else
    match value with
    | .vNum q => q
    | .vStr s =>
      match jsStringToNumber (replaceFirstPercent s) with
      | none => 0
      | some q => qOr q 0
    | _ => 0

/-- Embedding of `statusClass`: the severity tier of an uptime percentage. -/
def statusClass (uptime : ℚ) : String :=
  if 99 ≤ uptime then "ok"
  else if 95 ≤ uptime then "warn"
  else "down"

/-- Embedding of `statusLabel`: the display label for a raw status value,
compared by strict equality against the strings `"up"` and `"down"`. -/
def statusLabel (status : JSVal) : String :=
  if status = .vStr "up" then "Operational"
  else if status = .vStr "down" then "Outage"
  else "Degraded"

/-- Input service record, per the summary schema: `name` and `url` are the
string fields interpolated into the markup; the status and uptime fields are
raw JavaScript values. -/
structure ServiceRecord where
  name : String
  url : String
  status : JSVal
  uptimeDay : JSVal
  uptimeWeek : JSVal
  uptimeMonth : JSVal
  uptimeYear : JSVal
  uptime : JSVal
deriving DecidableEq

/-- JavaScript `Math.round` on an exact rational: round half toward
positive infinity. -/
def jsRound (q : ℚ) : ℤ := ⌊q + 1 / 2⌋

/-- The local `uptimeYear` of `renderService`:
`percentToNumber(service.uptimeYear || service.uptime)`. -/
def uptimeYearNum (service : ServiceRecord) : ℚ :=
  percentToNumber (jsOr service.uptimeYear service.uptime)

/-- The local `uptimeMonth` of `renderService`. -/
def uptimeMonthNum (service : ServiceRecord) : ℚ :=
  percentToNumber service.uptimeMonth

/-- The local `uptimeWeek` of `renderService`. -/
def uptimeWeekNum (service : ServiceRecord) : ℚ :=
  percentToNumber service.uptimeWeek

/-- The local `uptimeDay` of `renderService`. -/
def uptimeDayNum (service : ServiceRecord) : ℚ :=
  percentToNumber service.uptimeDay

/-- The local `overall` of `renderService`:
`uptimeYear || uptimeMonth || uptimeWeek || uptimeDay`. -/
def overallOf (service : ServiceRecord) : ℚ :=
  qOr (qOr (qOr (uptimeYearNum service) (uptimeMonthNum service)) (uptimeWeekNum service))
    (uptimeDayNum service)

/-- The constant `totalSegments` of `renderService`. -/
def totalSegments : ℤ := 120

/-- The local `downSegments` of `renderService`:
`Math.round((100 - overall) / 100 * totalSegments)`. -/
def downSegmentsOf (service : ServiceRecord) : ℤ :=
  jsRound ((100 - overallOf service) / 100 * (totalSegments : ℚ))

/-- The local `warnSegments` of `renderService`:
`Math.max(0, Math.min(downSegments, Math.ceil(downSegments / 2)))`. -/
def warnSegmentsOf (service : ServiceRecord) : ℤ :=
  max 0 (min (downSegmentsOf service) ⌈(downSegmentsOf service : ℚ) / 2⌉)

/-- The local `okSegments` of `renderService`:
`Math.max(0, totalSegments - downSegments)`. -/
def okSegmentsOf (service : ServiceRecord) : ℤ :=
  max 0 (totalSegments - downSegmentsOf service)

/-- The local `stripePalette` of `renderService`, before the shuffle:
`okSegments` ticks classed `"ok"`, then `warnSegments` classed `"warn"`,
then `Math.max(0, downSegments - warnSegments)` classed `"down"`. -/
def stripePaletteOf (service : ServiceRecord) : List String :=
  List.replicate (okSegmentsOf service).toNat "ok" ++
    List.replicate (warnSegmentsOf service).toNat "warn" ++
      List.replicate (max 0 (downSegmentsOf service - warnSegmentsOf service)).toNat "down"

/-- The local `currentClass` of `renderService`: `statusClass(overall)`. -/
def pillClassOf (service : ServiceRecord) : String :=
  statusClass (overallOf service)

/-- Digits-and-dot rendering helper for `toFixed(2)`: two-digit zero pad. -/
def pad2 (n : ℕ) : String :=
  if n < 10 then "0" ++ toString n else toString n

/-- JavaScript `q.toFixed(2)` on an exact rational: round to the nearest
hundredth, ties away from the smaller value, and print two decimals. -/
def jsToFixed2 (q : ℚ) : String :=
  let n : ℤ := ⌊q * 100 + 1 / 2⌋
  (if n < 0 then "-" else "") ++ toString (n.natAbs / 100) ++ "." ++ pad2 (n.natAbs % 100)

/-- One stripe tick of the barcode:
the inner template `<span class="tick ${cls}" aria-hidden="true"></span>`. -/
def tickHtml (cls : String) : String :=
  "<span class=\"tick " ++ cls ++ "\" aria-hidden=\"true\"></span>"

/-- Literal piece 1 of the renderService template. -/
def rsLit1 : String :=
  "\n" ++
  "    <section class=\"card\">\n" ++
  "      <div class=\"card-header\">\n" ++
  "        <div class=\"title\">"

/-- Literal piece 2 of the renderService template. -/
def rsLit2 : String :=
  "</div>\n" ++
  "        <div class=\"pill "

/-- Literal piece 3 of the renderService template. -/
def rsLit3 : String :=
  "\">"

/-- Literal piece 4 of the renderService template. -/
def rsLit4 : String :=
  "</div>\n" ++
  "      </div>\n" ++
  "      <div class=\"bar-row\">\n" ++
  "        <div class=\"service-meta\">\n" ++
  "          <div class=\"name\">"

/-- Literal piece 5 of the renderService template. -/
def rsLit5 : String :=
  "</div>\n" ++
  "          <div class=\"url\">"

/-- Literal piece 6 of the renderService template. -/
def rsLit6 : String :=
  "</div>\n" ++
  "        </div>\n" ++
  "        <div class=\"barcode\">\n" ++
  "          "

/-- Literal piece 7 of the renderService template. -/
def rsLit7 : String :=
  "\n" ++
  "        </div>\n" ++
  "        <div class=\"uptime\">"

/-- Literal piece 8 of the renderService template. -/
def rsLit8 : String :=
  "% uptime</div>\n" ++
  "      </div>\n" ++
  "    </section>\n" ++
  "  "

/-- The page template before the card list interpolation. -/
def pagePrefix : String :=
  "\n" ++
  "<!DOCTYPE html>\n" ++
  "<html lang=\"en\">\n" ++
  "<head>\n" ++
  "  <meta charset=\"UTF-8\" />\n" ++
  "  <meta name=\"viewport\" content=\"width=device-width, initial-scale=1.0\" />\n" ++
  "  <title>RCM Dev Status</title>\n" ++
  "  <style>\n" ++
  "    :root \x7b\n" ++
  "      --ink: #0b1f33;\n" ++
  "      --bg: #0f1624;\n" ++
  "      --card: #111d30;\n" ++
  "      --muted: #9fb3c8;\n" ++
  "      --accent: #0c66e4;\n" ++
  "      --warn: #f5a700;\n" ++
  "      --down: #ef4444;\n" ++
  "      --radius: 16px;\n" ++
  "      --bar-height: 72px;\n" ++
  "    \x7d\n" ++
  "    * \x7b box-sizing: border-box; \x7d\n" ++
  "    body \x7b\n" ++
  "      margin: 0;\n" ++
  "      padding: 32px 24px 48px;\n" ++
  "      font-family: \"Inter\", \"SF Pro Text\", -apple-system, BlinkMacSystemFont, \"Segoe UI\", sans-serif;\n" ++
  "      background: radial-gradient(circle at 20% 20%, rgba(12,102,228,0.06), transparent 25%),\n" ++
  "                  radial-gradient(circle at 80% 0%, rgba(245,167,0,0.05), transparent 30%),\n" ++
  "                  var(--bg);\n" ++
  "      color: #e8f1fb;\n" ++
  "      min-height: 100vh;\n" ++
  "    \x7d\n" ++
  "    h1 \x7b\n" ++
  "      margin: 0 0 4px;\n" ++
  "      font-size: 32px;\n" ++
  "      letter-spacing: -0.5px;\n" ++
  "    \x7d\n" ++
  "    p.lede \x7b\n" ++
  "      margin: 0 0 28px;\n" ++
  "      color: var(--muted);\n" ++
  "      max-width: 720px;\n" ++
  "    \x7d\n" ++
  "    .grid \x7b\n" ++
  "      display: flex;\n" ++
  "      flex-direction: column;\n" ++
  "      gap: 12px;\n" ++
  "    \x7d\n" ++
  "    .card \x7b\n" ++
  "      background: #0f1828;\n" ++
  "      border: 1px solid rgba(255,255,255,0.06);\n" ++
  "      border-radius: var(--radius);\n" ++
  "      padding: 16px;\n" ++
  "      box-shadow: 0 12px 28px rgba(0,0,0,0.28);\n" ++
  "    \x7d\n" ++
  "    .card-header \x7b\n" ++
  "      display: flex;\n" ++
  "      align-items: center;\n" ++
  "      justify-content: space-between;\n" ++
  "      margin-bottom: 12px;\n" ++
  "    \x7d\n" ++
  "    .title \x7b\n" ++
  "      font-weight: 700;\n" ++
  "      font-size: 18px;\n" ++
  "      letter-spacing: -0.2px;\n" ++
  "    \x7d\n" ++
  "    .pill \x7b\n" ++
  "      padding: 6px 10px;\n" ++
  "      border-radius: 999px;\n" ++
  "      font-size: 12px;\n" ++
  "      font-weight: 700;\n" ++
  "      letter-spacing: 0.4px;\n" ++
  "      border: 1px solid rgba(255,255,255,0.08);\n" ++
  "      text-transform: uppercase;\n" ++
  "    \x7d\n" ++
  "    .pill.ok \x7b background: rgba(12,102,228,0.18); color: #b8d7ff; \x7d\n" ++
  "    .pill.warn \x7b background: rgba(245,167,0,0.2); color: #ffe08a; \x7d\n" ++
  "    .pill.down \x7b background: rgba(239,68,68,0.2); color: #ffb1b1; \x7d\n" ++
  "    .bar-row \x7b\n" ++
  "      display: grid;\n" ++
  "      grid-template-columns: auto 1fr auto;\n" ++
  "      gap: 12px;\n" ++
  "      align-items: center;\n" ++
  "    \x7d\n" ++
  "    .service-meta \x7b\n" ++
  "      min-width: 200px;\n" ++
  "    \x7d\n" ++
  "    .name \x7b\n" ++
  "      font-weight: 700;\n" ++
  "      font-size: 15px;\n" ++
  "      margin-bottom: 4px;\n" ++
  "    \x7d\n" ++
  "    .url \x7b\n" ++
  "      font-size: 12px;\n" ++
  "      color: var(--muted);\n" ++
  "      word-break: break-all;\n" ++
  "    \x7d\n" ++
  "    .barcode \x7b\n" ++
  "      display: grid;\n" ++
  "      grid-auto-flow: column;\n" ++
  "      grid-auto-columns: 8px;\n" ++
  "      gap: 4px;\n" ++
  "      align-items: center;\n" ++
  "      padding: 6px 10px;\n" ++
  "      background: rgba(255,255,255,0.02);\n" ++
  "      border-radius: 10px;\n" ++
  "      border: 1px solid rgba(255,255,255,0.06);\n" ++
  "    \x7d\n" ++
  "    .tick \x7b\n" ++
  "      width: 8px;\n" ++
  "      height: 28px;\n" ++
  "      border-radius: 4px;\n" ++
  "      display: inline-block;\n" ++
  "    \x7d\n" ++
  "    .tick.ok \x7b background: #1abf78; \x7d\n" ++
  "    .tick.warn \x7b background: #f5a700; \x7d\n" ++
  "    .tick.down \x7b background: #ef4444; \x7d\n" ++
  "    .uptime \x7b\n" ++
  "      font-weight: 700;\n" ++
  "      font-size: 14px;\n" ++
  "      color: #d9e6f7;\n" ++
  "      white-space: nowrap;\n" ++
  "    \x7d\n" ++
  "    @media (max-width: 900px) \x7b\n" ++
  "      .bar-row \x7b grid-template-columns: 1fr; \x7d\n" ++
  "      .service-meta \x7b min-width: auto; \x7d\n" ++
  "      .uptime \x7b justify-self: flex-start; \x7d\n" ++
  "      .barcode \x7b grid-auto-columns: 10px; \x7d\n" ++
  "    \x7d\n" ++
  "  </style>\n" ++
  "</head>\n" ++
  "<body>\n" ++
  "  <h1>RCM Dev Status</h1>\n" ++
  "  <p class=\"lede\">Barcode-style snapshot of dev stack readiness. Stripes show aggregate uptime mix; labels read from live Upptime checks.</p>\n" ++
  "  <div class=\"grid\">\n" ++
  "    "

/-- The page template after the card list interpolation. -/
def pageSuffix : String :=
  "\n" ++
  "  </div>\n" ++
  "</body>\n" ++
  "</html>\n"

/-- Embedding of `renderService`.  The nondeterministic
`stripePalette.sort(() => Math.random() - 0.5)` is a permutation of the
palette chosen by the runtime; it is passed in as `shuffle`. -/
def renderService (shuffle : List String → List String) (service : ServiceRecord) : String :=
  let currentClass := pillClassOf service
  let pill := statusLabel service.status
  let shuffled := shuffle (stripePaletteOf service)
  rsLit1 ++ service.name ++ rsLit2 ++ currentClass ++ rsLit3 ++ pill ++ rsLit4 ++
    service.name ++ rsLit5 ++ service.url ++ rsLit6 ++
      String.join (shuffled.map tickHtml) ++ rsLit7 ++
        jsToFixed2 (qOr (overallOf service) 0) ++ rsLit8

/-- The document produced by `buildPage` before `html.trim()`: the page
shell around `services.map(renderService).join("")`. -/
def buildPageHtml (shuffle : List String → List String) (services : List ServiceRecord) : String :=
  pagePrefix ++ String.join (services.map (renderService shuffle)) ++ pageSuffix

/-- Contents of the summary file, kept at parse-outcome granularity: either
text that `JSON.parse` rejects, or a parsed array of service records. -/
inductive FileContent where
  | invalidJson
  | jsonArr (services : List ServiceRecord)
deriving DecidableEq

/-- The file system state the script touches: the summary file, whether the
output directory exists, and the output file contents. -/
structure FS where
  summaryFile : Option FileContent
  outDirExists : Bool
  outFile : Option String
deriving DecidableEq

/-- The two fatal error kinds: `readFileSync` throwing on a missing file,
and `JSON.parse` throwing on invalid syntax. -/
inductive BuildError where
  | readFailure
  | parseFailure
deriving DecidableEq

/-- Embedding of `loadSummary`: read the summary file and parse it; a
missing file or unparsable contents is a thrown (propagated) error. -/
def loadSummary (fs : FS) : Except BuildError (List ServiceRecord) :=
  match fs.summaryFile with
  | none => .error .readFailure
  | some .invalidJson => .error .parseFailure
  | some (.jsonArr services) => .ok services

/-- Embedding of `buildPage`: render the page, create the output directory
(`mkdirSync` with `recursive: true`), and write the trimmed document. -/
def buildPage (shuffle : List String → List String) (services : List ServiceRecord)
    (fs : FS) : FS :=
  { fs with outDirExists := true, outFile := some (buildPageHtml shuffle services).trim }

/-- Embedding of `main`: `loadSummary` then `buildPage`.  A thrown error in
`loadSummary` propagates out of `main` before `buildPage` runs, leaving the
file system untouched.  (Named `mainFn` because Lean reserves `main`.) -/
def mainFn (shuffle : List String → List String) (fs : FS) :
    Except BuildError Unit × FS :=
  match loadSummary fs with
  | .error e => (.error e, fs)
  | .ok services => (.ok (), buildPage shuffle services fs)

/-- Modelled from the spec sentence of claim C3: strip any trailing `%`
character from a string (the code instead removes the first occurrence). -/
def stripTrailingPercent (s : String) : String :=
  if s.data.getLast? = some '%' then ⟨s.data.dropLast⟩ else s

/-- The percentage normalizer as claim C3 words it: `0` on null, undefined,
`NaN`, `0` and the empty string; any other numeric input as-is; a string
has any trailing `%` stripped and is parsed as a decimal number, with `0`
on parse failure. -/
def claimedPercentToNumber : JSVal → ℚ
  | .vNull => 0
  | .vUndefined => 0
  | .vNaN => 0
  | .vNum q => q
  | .vStr s => if s = "" then 0 else (jsStringToNumber (stripTrailingPercent s)).getD 0

/-- The percentage normalizer as amended for claim C3: identical to the
claim except that the first `%` occurrence is removed, wherever it is. -/
def amendedPercentToNumber : JSVal → ℚ
  | .vNull => 0
  | .vUndefined => 0
  | .vNaN => 0
  | .vNum q => q
  | .vStr s => if s = "" then 0 else (jsStringToNumber (replaceFirstPercent s)).getD 0

/-- First non-zero element of a list of finite numbers, `0` when all are
zero: the fall-through chain described in the spec. -/
def firstNonZero : List ℚ → ℚ
  | [] => 0
  | q :: qs => qOr q (firstNonZero qs)

/-- The overall percentage as claim C4 words it: the first non-zero value,
after normalization, in priority order
`[uptimeYear, uptimeMonth, uptimeWeek, uptimeDay]`. -/
def claimedOverallOf (service : ServiceRecord) : ℚ :=
  firstNonZero [percentToNumber service.uptimeYear, percentToNumber service.uptimeMonth,
    percentToNumber service.uptimeWeek, percentToNumber service.uptimeDay]

/-- The overall percentage as amended for claim C4: the year slot falls
back to the raw `uptime` field when the raw `uptimeYear` field is falsy. -/
def amendedOverallOf (service : ServiceRecord) : ℚ :=
  firstNonZero [percentToNumber (jsOr service.uptimeYear service.uptime),
    percentToNumber service.uptimeMonth, percentToNumber service.uptimeWeek,
      percentToNumber service.uptimeDay]

/-- Severity rank for the monotonicity property: `down < warn < ok`. -/
def severityRank (severity : String) : ℕ :=
  if severity = "down" then 0 else if severity = "warn" then 1 else 2

/-- Normalizing an already-normalized number returns it unchanged: a truthy
number is returned as-is and `0` maps to `0`. -/
theorem percentToNumber_vNum (q : ℚ) : percentToNumber (.vNum q) = q := by
  by_cases h : q = 0 <;> simp [percentToNumber, jsTruthy, h]

/-- Associativity of the numeric fall-through chain. -/
theorem qOr_assoc (a b c : ℚ) : qOr (qOr a b) c = qOr a (qOr b c) := by
  unfold qOr
  split_ifs <;> simp_all

/-- A fall-through into `0` is the identity. -/
theorem qOr_zero_right (a : ℚ) : qOr a 0 = a := by
  unfold qOr
  split_ifs <;> simp_all

/-- Characterization of the `ok` tier. -/
theorem statusClass_eq_ok_iff (u : ℚ) : statusClass u = "ok" ↔ 99 ≤ u := by
  unfold statusClass
  split_ifs <;> simp_all

/-- Characterization of the `warn` tier. -/
theorem statusClass_eq_warn_iff (u : ℚ) : statusClass u = "warn" ↔ 95 ≤ u ∧ u < 99 := by
  unfold statusClass
  split_ifs with h1 h2 <;> simp_all

/-- Characterization of the `down` tier. -/
theorem statusClass_eq_down_iff (u : ℚ) : statusClass u = "down" ↔ u < 95 := by
  unfold statusClass
  split_ifs with h1 h2 <;> simp_all
  linarith

/-- Numeric view of the severity rank of a classified percentage. -/
theorem severityRank_statusClass (u : ℚ) :
    severityRank (statusClass u) = if 99 ≤ u then 2 else if 95 ≤ u then 1 else 0 := by
  unfold statusClass severityRank
  split_ifs <;> simp_all

/-- C2: for every number `u`, the severity classifier returns `ok` iff
`u ≥ 99`, `warn` iff `95 ≤ u < 99` and `down` iff `u < 95`; in particular
`classify 99 = ok`, `classify 98.99 = warn`, `classify 95 = warn` and
`classify 94.99 = down`. -/
theorem statusClass_thresholds :
    (∀ u : ℚ, (statusClass u = "ok" ↔ 99 ≤ u) ∧
      (statusClass u = "warn" ↔ 95 ≤ u ∧ u < 99) ∧
      (statusClass u = "down" ↔ u < 95)) ∧
    statusClass 99 = "ok" ∧ statusClass 98.99 = "warn" ∧
      statusClass 95 = "warn" ∧ statusClass 94.99 = "down" := by
  refine ⟨fun u => ⟨statusClass_eq_ok_iff u, statusClass_eq_warn_iff u,
    statusClass_eq_down_iff u⟩, ?_, ?_, ?_, ?_⟩ <;> with_unfolding_all decide

/-- C9: the severity classifier is monotonic with respect to the rank order
`down < warn < ok`. -/
theorem statusClass_monotone (a b : ℚ) (hab : a ≤ b) :
    severityRank (statusClass a) ≤ severityRank (statusClass b) := by
  rw [severityRank_statusClass, severityRank_statusClass]
  split_ifs <;> first | omega | linarith

/-- C9 witness: the monotonicity theorem applied at `3 ≤ 7`. -/
theorem statusClass_monotone_witness :
    (3 : ℚ) ≤ 7 ∧ severityRank (statusClass 3) ≤ severityRank (statusClass 7) :=
  ⟨by norm_num, statusClass_monotone 3 7 (by norm_num)⟩

/-- C8: the percentage normalizer is idempotent; feeding its (numeric)
result back in returns the same number. -/
theorem percentToNumber_idempotent (x : JSVal) :
    percentToNumber (.vNum (percentToNumber x)) = percentToNumber x :=
  percentToNumber_vNum (percentToNumber x)

/-- C3 counterexample: the normalizer does not strip a trailing `%` and
parse the rest.  On `"%50"` (no trailing `%`) the claimed behaviour yields
`0`, while the code removes the first `%` and returns `50`. -/
theorem percentToNumber_strips_first_not_trailing :
    percentToNumber (.vStr "%50") = 50 ∧ claimedPercentToNumber (.vStr "%50") = 0 ∧
      percentToNumber (.vStr "%50") ≠ claimedPercentToNumber (.vStr "%50") := by
  with_unfolding_all decide

/-- C3 amended: same claim with the string rule corrected to removal of the
first `%` occurrence (wherever it is) before decimal parsing. -/
theorem percentToNumber_amended_spec (v : JSVal) :
    percentToNumber v = amendedPercentToNumber v := by
  cases v with
  | vNull => rfl
  | vUndefined => rfl
  | vNaN => rfl
  | vNum q =>
    by_cases h : q = 0 <;> simp [percentToNumber, amendedPercentToNumber, jsTruthy, h]
  | vStr s =>
    by_cases h : s = ""
    · simp [percentToNumber, amendedPercentToNumber, jsTruthy, h]
    · simp only [percentToNumber, amendedPercentToNumber, jsTruthy, h, decide_not,
        if_neg, Bool.not_eq_false]
      cases hp : jsStringToNumber (replaceFirstPercent s) with
      | none => simp [hp]
      | some q => by_cases hq : q = 0 <;> simp [hp, qOr, hq]

/-- Concrete record for the C4 counterexample: `uptimeYear` is absent,
`uptime` is `"99.5%"` and `uptimeMonth` is `80`. -/
def c4Record : ServiceRecord :=
  { name := "svc", url := "https://example.test", status := .vStr "up",
    uptimeDay := .vUndefined, uptimeWeek := .vUndefined, uptimeMonth := .vNum 80,
    uptimeYear := .vUndefined, uptime := .vStr "99.5%" }

/-- C4 counterexample: the overall percentage is not the first non-zero
normalized value of `[uptimeYear, uptimeMonth, uptimeWeek, uptimeDay]`.
With `uptimeYear` absent and `uptime = "99.5%"`, the code takes `99.5` from
the `uptime` fallback (pill `ok`) while the claimed priority order yields
`80` (pill `down`). -/
theorem overall_priority_counterexample :
    overallOf c4Record = 199 / 2 ∧ claimedOverallOf c4Record = 80 ∧
      overallOf c4Record ≠ claimedOverallOf c4Record ∧
        pillClassOf c4Record = "ok" ∧ statusClass (claimedOverallOf c4Record) = "down" := by
  with_unfolding_all decide

/-- C4 amended: the overall percentage is the first non-zero value, after
normalization, in priority order `[uptimeYear falling back to uptime when
the raw uptimeYear field is falsy, uptimeMonth, uptimeWeek, uptimeDay]`,
and the pill severity class is `classify` of that same overall value. -/
theorem overallOf_amended_spec (service : ServiceRecord) :
    overallOf service = amendedOverallOf service ∧
      pillClassOf service = statusClass (overallOf service) := by
  refine ⟨?_, rfl⟩
  simp only [overallOf, amendedOverallOf, firstNonZero, uptimeYearNum, uptimeMonthNum,
    uptimeWeekNum, uptimeDayNum, qOr_zero_right, qOr_assoc]

/-- Concrete record for the C1 counterexample: every window field and
`uptime` are absent. -/
def c1Record : ServiceRecord :=
  { name := "svc", url := "https://example.test", status := .vStr "up",
    uptimeDay := .vUndefined, uptimeWeek := .vUndefined, uptimeMonth := .vUndefined,
    uptimeYear := .vUndefined, uptime := .vUndefined }

/-- C1 counterexample: varying only the `uptime` field changes the overall
percentage, the pill severity class and the stripe tick counts.  With all
window fields absent, setting `uptime` from absent to `"99%"` moves the
overall from `0` to `99`, the pill from `down` to `ok`, and the number of
`down`-classed ticks from `60` to `0`. -/
theorem uptime_affects_classification_counterexample :
    overallOf { c1Record with uptime := .vStr "99%" } ≠ overallOf c1Record ∧
      pillClassOf { c1Record with uptime := .vStr "99%" } ≠ pillClassOf c1Record ∧
        (stripePaletteOf { c1Record with uptime := .vStr "99%" }).count "down" ≠
          (stripePaletteOf c1Record).count "down" := by
  with_unfolding_all decide

/-- C1 amended: `uptime` is a fallback for `uptimeYear`, not display-only.
Whenever the record's raw `uptimeYear` field is truthy the fallback is not
taken, and varying only `uptime` leaves the overall percentage, the pill
severity class and the stripe palette (hence all tick counts) unchanged. -/
theorem uptime_ignored_when_uptimeYear_truthy (service : ServiceRecord) (u : JSVal)
    (h : jsTruthy service.uptimeYear = true) :
    overallOf { service with uptime := u } = overallOf service ∧
      pillClassOf { service with uptime := u } = pillClassOf service ∧
        stripePaletteOf { service with uptime := u } = stripePaletteOf service := by
  have hov : overallOf { service with uptime := u } = overallOf service := by
    simp [overallOf, uptimeYearNum, uptimeMonthNum, uptimeWeekNum, uptimeDayNum, jsOr, h]
  refine ⟨hov, ?_, ?_⟩
  · simp [pillClassOf, hov]
  · simp [stripePaletteOf, okSegmentsOf, warnSegmentsOf, downSegmentsOf, hov]

/-- C1 witness: the amended invariance applied to a record whose raw
`uptimeYear` is the truthy string `"100"`. -/
theorem uptime_ignored_when_uptimeYear_truthy_witness :
    jsTruthy (JSVal.vStr "100") = true ∧
      (overallOf { c1Record with uptimeYear := .vStr "100", uptime := .vStr "13%" } =
          overallOf { c1Record with uptimeYear := .vStr "100" } ∧
        pillClassOf { c1Record with uptimeYear := .vStr "100", uptime := .vStr "13%" } =
            pillClassOf { c1Record with uptimeYear := .vStr "100" } ∧
          stripePaletteOf { c1Record with uptimeYear := .vStr "100", uptime := .vStr "13%" } =
              stripePaletteOf { c1Record with uptimeYear := .vStr "100" }) :=
  ⟨by decide, uptime_ignored_when_uptimeYear_truthy
    { c1Record with uptimeYear := .vStr "100" } (.vStr "13%") (by decide)⟩

/-- C5: for a service whose normalized overall percentage lies in
`[0, 100]`, any shuffle of the stripe palette has exactly `120` ticks, of
which `down`- and `warn`-classed ticks together number
`round((100 - overall) / 100 * 120)`, and the rest are classed `ok`. -/
theorem stripe_tick_counts (service : ServiceRecord) (shuffled : List String)
    (h0 : 0 ≤ overallOf service) (h100 : overallOf service ≤ 100)
    (hp : shuffled.Perm (stripePaletteOf service)) :
    shuffled.length = 120 ∧
      ((shuffled.count "down" : ℤ) + (shuffled.count "warn" : ℤ) =
        jsRound ((100 - overallOf service) / 100 * 120)) ∧
      shuffled.count "ok" = 120 - (shuffled.count "down" + shuffled.count "warn") := by
  have hds : jsRound ((100 - overallOf service) / 100 * 120) = downSegmentsOf service := by
    norm_num [downSegmentsOf, totalSegments]
  have hd0 : 0 ≤ downSegmentsOf service := by
    unfold downSegmentsOf totalSegments jsRound
    refine Int.le_floor.mpr ?_
    push_cast
    linarith
  have hd120 : downSegmentsOf service ≤ 120 := by
    have h121 : downSegmentsOf service < 121 := by
      unfold downSegmentsOf totalSegments jsRound
      refine Int.floor_lt.mpr ?_
      push_cast
      linarith
    omega
  have hdq : (0 : ℚ) ≤ (downSegmentsOf service : ℚ) := by exact_mod_cast hd0
  have hc0 : 0 ≤ (⌈(downSegmentsOf service : ℚ) / 2⌉ : ℤ) :=
    Int.ceil_nonneg (by linarith)
  have hcd : (⌈(downSegmentsOf service : ℚ) / 2⌉ : ℤ) ≤ downSegmentsOf service := by
    refine Int.ceil_le.mpr ?_
    linarith
  have hlen : shuffled.length = (stripePaletteOf service).length := hp.length_eq
  have hcount : ∀ x : String, shuffled.count x = (stripePaletteOf service).count x :=
    fun x => hp.count_eq x
  have hok : (stripePaletteOf service).count "ok" = (okSegmentsOf service).toNat := by
    simp [stripePaletteOf, List.count_append, List.count_replicate]
  have hwa : (stripePaletteOf service).count "warn" = (warnSegmentsOf service).toNat := by
    simp [stripePaletteOf, List.count_append, List.count_replicate]
  have hdo : (stripePaletteOf service).count "down" =
      (max 0 (downSegmentsOf service - warnSegmentsOf service)).toNat := by
    simp [stripePaletteOf, List.count_append, List.count_replicate]
  have hplen : (stripePaletteOf service).length =
      (okSegmentsOf service).toNat + ((warnSegmentsOf service).toNat +
        (max 0 (downSegmentsOf service - warnSegmentsOf service)).toNat) := by
    simp [stripePaletteOf]
  have hoks : okSegmentsOf service = max 0 (120 - downSegmentsOf service) := rfl
  have hws : warnSegmentsOf service =
      max 0 (min (downSegmentsOf service) ⌈(downSegmentsOf service : ℚ) / 2⌉) := rfl
  rw [hds, hlen, hplen]
  simp only [hcount, hok, hwa, hdo]
  refine ⟨by omega, by omega, by omega⟩

/-- Concrete record for the C5 witness: only `uptimeDay` is present, at
`50`, so the overall percentage is `50`. -/
def c5Record : ServiceRecord :=
  { name := "svc", url := "https://example.test", status := .vStr "up",
    uptimeDay := .vNum 50, uptimeWeek := .vUndefined, uptimeMonth := .vUndefined,
    uptimeYear := .vUndefined, uptime := .vUndefined }

/-- C5 witness: the tick-count theorem applied to `c5Record` with the
identity permutation of its palette. -/
theorem stripe_tick_counts_witness :
    0 ≤ overallOf c5Record ∧ overallOf c5Record ≤ 100 ∧
      (stripePaletteOf c5Record).Perm (stripePaletteOf c5Record) ∧
      ((stripePaletteOf c5Record).length = 120 ∧
        (((stripePaletteOf c5Record).count "down" : ℤ) +
            ((stripePaletteOf c5Record).count "warn" : ℤ) =
          jsRound ((100 - overallOf c5Record) / 100 * 120)) ∧
        (stripePaletteOf c5Record).count "ok" =
          120 - ((stripePaletteOf c5Record).count "down" +
            (stripePaletteOf c5Record).count "warn")) :=
  ⟨by with_unfolding_all decide, by with_unfolding_all decide, List.Perm.refl _,
    stripe_tick_counts c5Record (stripePaletteOf c5Record)
      (by with_unfolding_all decide) (by with_unfolding_all decide) (List.Perm.refl _)⟩

/-- C6: if reading or parsing the summary fails, `mainFn` propagates the
error and performs no output effect: the output directory is not created
and no output file is written. -/
theorem input_unavailable_no_output (shuffle : List String → List String) (fs : FS)
    (e : BuildError) (h : loadSummary fs = .error e) :
    mainFn shuffle fs = (.error e, fs) ∧
      (mainFn shuffle fs).2.outDirExists = fs.outDirExists ∧
      (mainFn shuffle fs).2.outFile = fs.outFile := by
  have hm : mainFn shuffle fs = (.error e, fs) := by
    unfold mainFn
    rw [h]
  exact ⟨hm, by rw [hm], by rw [hm]⟩

/-- C6 witness: on a state with no summary file, `mainFn` returns the read
error and leaves the state (no directory, no output file) unchanged. -/
theorem input_unavailable_no_output_witness :
    loadSummary ⟨none, false, none⟩ = .error .readFailure ∧
      mainFn id ⟨none, false, none⟩ = (.error .readFailure, ⟨none, false, none⟩) :=
  ⟨rfl, (input_unavailable_no_output id ⟨none, false, none⟩ .readFailure rfl).1⟩

/-- C7: the output document is the page shell around exactly one rendered
card per record, concatenated in input order: the card list has the length
of the input and its `i`-th entry is the rendering of the `i`-th record. -/
theorem buildPage_preserves_order (shuffle : List String → List String)
    (services : List ServiceRecord) :
    buildPageHtml shuffle services =
      pagePrefix ++ String.join (services.map (renderService shuffle)) ++ pageSuffix ∧
      (services.map (renderService shuffle)).length = services.length ∧
      ∀ i : ℕ, (services.map (renderService shuffle))[i]? =
        (services[i]?).map (renderService shuffle) :=
  ⟨rfl, by simp, fun i => by simp⟩

/-- C10: `renderService` splices the record's `name` and `url` into the
markup character-for-character, with no escaping: the output decomposes
around the verbatim field values. -/
theorem renderService_embeds_name_url_verbatim (shuffle : List String → List String)
    (service : ServiceRecord) :
    (∃ a b, renderService shuffle service = a ++ service.name ++ b) ∧
      ∃ c d, renderService shuffle service = c ++ service.url ++ d := by
  constructor
  · exact ⟨rsLit1, rsLit2 ++ pillClassOf service ++ rsLit3 ++ statusLabel service.status ++
      rsLit4 ++ service.name ++ rsLit5 ++ service.url ++ rsLit6 ++
      String.join ((shuffle (stripePaletteOf service)).map tickHtml) ++ rsLit7 ++
      jsToFixed2 (qOr (overallOf service) 0) ++ rsLit8, by
        simp [renderService, String.append_assoc]⟩
  · exact ⟨rsLit1 ++ service.name ++ rsLit2 ++ pillClassOf service ++ rsLit3 ++
      statusLabel service.status ++ rsLit4 ++ service.name ++ rsLit5,
      rsLit6 ++ String.join ((shuffle (stripePaletteOf service)).map tickHtml) ++ rsLit7 ++
      jsToFixed2 (qOr (overallOf service) 0) ++ rsLit8, by
        simp [renderService, String.append_assoc]⟩
